import Mathlib

/-!
Verification of the Pliva Retreat booking backend (`src/main.py`, `src/schemas.py`).

Shallow embedding conventions:
* Calendar dates are modelled as `Int` day ordinals. The code stores dates as ISO-8601
  `YYYY-MM-DD` strings and compares them with the store's `$lt`/`$gt` operators;
  lexicographic order on such strings coincides with chronological order, so the
  day-ordinal order is a faithful model, and `timedelta` day arithmetic is `Int`
  addition/subtraction.
* Python floats (`price_per_night`, `total_price`) are modelled as `ℚ`; the code only
  multiplies a price by an integer night count.
* The persistence store (`database.py`, not under `src/`) is modelled from the spec:
  three collections held as lists, with `insert` as append (the generated record id is
  the index of the appended record), `find_one` as `List.find?`, and `find` with a
  filter as `List.filter`.  Filter predicates translate the Mongo operators
  (`$lt`, `$gt`, `$ne`, `$or` with a single disjunct, equality) used in `main.py`.
* `hashlib.sha256(...).hexdigest()` is external library code; it is abstracted as a
  `digest : String → String` parameter of the operations that hash passwords.
* FastAPI `HTTPException` outcomes are modelled as explicit result constructors
  (`notFound`, `conflict`, `invalidRange`, `alreadyExists`).
-/

namespace PlivaRetreat

/-- A user record (`schemas.User`): name, email, password hash, optional avatar. -/
structure User where
  name : String
  email : String
  password_hash : String
  avatar_url : Option String
deriving DecidableEq, Repr

/-- An offering record (`schemas.Offering`). -/
structure Offering where
  id : String
  title : String
  description : String
  price_per_night : ℚ
  max_guests : Int
  amenities : List String
  photos : List String
deriving DecidableEq, Repr

/-- A booking record (`schemas.Booking`): half-open date range `[start_date, end_date)`. -/
structure Booking where
  user_email : String
  offering_id : String
  start_date : Int
  end_date : Int
  guests : Int
  total_price : ℚ
  status : String
  note : Option String
deriving DecidableEq, Repr

/-- Modelled from the spec: the persistence store (`database.py` is not under `src/`)
holds three collections — users, offerings, bookings — as lists; insert appends and
returns the new record's index as its identifier. -/
structure Store where
  users : List User
  offerings : List Offering
  bookings : List Booking
deriving DecidableEq, Repr

/-- `daterange` from `main.py`: `for n in range(int((end_date - start_date).days)):
yield start_date + timedelta(n)`. -/
def daterange (start_date end_date : Int) : List Int :=
  (List.range (end_date - start_date).toNat).map (fun (n : Nat) => start_date + (n : Int))

/-- The Mongo filter used by `check_availability` in `main.py`:
`offering_id == oid` and `$or [{start_date $lt end, end_date $gt start}]`
(no status condition appears in this query). -/
def availability_query (oid : String) (start_date end_date : Int) (b : Booking) : Bool :=
  b.offering_id == oid && (decide (b.start_date < end_date) && decide (b.end_date > start_date))

/-- The blocked-day test of `check_availability`: membership of a day in the union of
the day expansions of the fetched overlapping bookings. -/
def blocked (store : Store) (oid : String) (start_date end_date d : Int) : Bool :=
  ((store.bookings.filter (availability_query oid start_date end_date)).flatMap
    (fun b => daterange b.start_date b.end_date)).contains d

/-- `check_availability` from `main.py`: fetch bookings of the offering overlapping the
query range (no status filter), union their day expansions into the `unavailable` set,
then report, for each day of the query range, whether it is outside that set. -/
def check_availability (store : Store) (oid : String) (start_date end_date : Int) :
    List (Int × Bool) :=
  let bookings := store.bookings.filter (availability_query oid start_date end_date)
  let unavailable := bookings.flatMap (fun b => daterange b.start_date b.end_date)
  (daterange start_date end_date).map (fun d => (d, !(unavailable.contains d)))

/-- The request body of `POST /book` (`CreateBookingRequest` in `main.py`); it carries
no note field. -/
structure CreateBookingRequest where
  user_email : String
  offering_id : String
  start_date : Int
  end_date : Int
  guests : Int
deriving DecidableEq, Repr

/-- Outcome of `create_booking`: the three `HTTPException`s of `main.py` or success
with the new booking id and the total price. -/
inductive BookResult where
  | notFound : BookResult
  | conflict : BookResult
  | invalidRange : BookResult
  | ok : Nat → ℚ → BookResult
deriving DecidableEq, Repr

/-- The Mongo filter of the conflict check in `create_booking`:
`offering_id == req.offering_id`, `$or [{start_date $lt req.end, end_date $gt req.start}]`,
`status $ne "cancelled"`. -/
def conflict_query (req : CreateBookingRequest) (b : Booking) : Bool :=
  b.offering_id == req.offering_id &&
    (decide (b.start_date < req.end_date) && decide (b.end_date > req.start_date)) &&
    b.status != "cancelled"

/-- `create_booking` from `main.py`: resolve the offering (else `notFound`), run the
conflict query (else `conflict`), validate `nights > 0` (else `invalidRange`), price
linearly and append a confirmed booking, returning its id and the total. -/
def create_booking (store : Store) (req : CreateBookingRequest) : BookResult × Store :=
  match store.offerings.find? (fun o => o.id == req.offering_id) with
  | none => (BookResult.notFound, store)
  | some off =>
    match store.bookings.find? (conflict_query req) with
    | some _ => (BookResult.conflict, store)
    | none =>
      let nights : Int := req.end_date - req.start_date
      if nights ≤ 0 then (BookResult.invalidRange, store)
      else
        let total : ℚ := off.price_per_night * (nights : ℚ)
        let booking : Booking :=
          { user_email := req.user_email
            offering_id := req.offering_id
            start_date := req.start_date
            end_date := req.end_date
            guests := req.guests
            total_price := total
            status := "confirmed"
            note := none }
        (BookResult.ok store.bookings.length total,
          { store with bookings := store.bookings ++ [booking] })

/-- Modelled from the spec: `hash_password` in `main.py` applies the one-way digest
`hashlib.sha256(password.encode("utf-8")).hexdigest()`; the digest itself is external
library code, abstracted here as the parameter `digest`. -/
def hash_password (digest : String → String) (password : String) : String :=
  digest password

/-- Outcome of `register`: `AlreadyExists` or success with the new user id. -/
inductive RegResult where
  | alreadyExists : RegResult
  | ok : Nat → RegResult
deriving DecidableEq, Repr

/-- `register` from `main.py`: exact-match lookup of the email (else 400 already
registered), then store a new user whose `password_hash` is the digest of the supplied
password and whose avatar is absent. -/
def register (digest : String → String) (store : Store) (name email password : String) :
    RegResult × Store :=
  match store.users.find? (fun u => u.email == email) with
  | some _ => (RegResult.alreadyExists, store)
  | none =>
    let user : User :=
      { name := name
        email := email
        password_hash := hash_password digest password
        avatar_url := none }
    (RegResult.ok store.users.length, { store with users := store.users ++ [user] })

/-- The seeded "van" offering of `ensure_offerings` in `main.py`. -/
def vanOffering : Offering :=
  { id := "van"
    title := "Fully Equipped Camper Van"
    description := "Cozy van"
    price_per_night := 55
    max_guests := 2
    amenities := []
    photos := [] }

/-- A confirmed booking of the van on days `[10, 13)`. -/
def vanBooking : Booking :=
  { user_email := "ana@example.com"
    offering_id := "van"
    start_date := 10
    end_date := 13
    guests := 2
    total_price := 165
    status := "confirmed"
    note := none }

/-- A cancelled booking of the van on days `[20, 22)`. -/
def vanCancelledBooking : Booking :=
  { user_email := "ivo@example.com"
    offering_id := "van"
    start_date := 20
    end_date := 22
    guests := 1
    total_price := 110
    status := "cancelled"
    note := none }

/-- An already registered user. -/
def anaUser : User :=
  { name := "Ana"
    email := "ana@example.com"
    password_hash := "d-secret"
    avatar_url := none }

/-- A store with one offering, one confirmed and one cancelled booking, one user. -/
def sampleStore : Store :=
  { users := [anaUser]
    offerings := [vanOffering]
    bookings := [vanBooking, vanCancelledBooking] }

/-- A request overlapping the confirmed booking `[10, 13)`. -/
def overlapReq : CreateBookingRequest :=
  { user_email := "ivo@example.com"
    offering_id := "van"
    start_date := 12
    end_date := 14
    guests := 1 }

/-- A request touching the confirmed booking only at its boundary: `[13, 16)`. -/
def boundaryReq : CreateBookingRequest :=
  { user_email := "ivo@example.com"
    offering_id := "van"
    start_date := 13
    end_date := 16
    guests := 1 }

/-- A degenerate request (`start = end`) inside the confirmed booking `[10, 13)`. -/
def degenerateReq : CreateBookingRequest :=
  { user_email := "ivo@example.com"
    offering_id := "van"
    start_date := 12
    end_date := 12
    guests := 1 }

/-- A degenerate request on days free of any booking. -/
def degenerateFreeReq : CreateBookingRequest :=
  { user_email := "ivo@example.com"
    offering_id := "van"
    start_date := 30
    end_date := 30
    guests := 1 }

theorem mem_daterange (s e d : Int) : d ∈ daterange s e ↔ s ≤ d ∧ d < e := by
  simp only [daterange, List.mem_map, List.mem_range]
  constructor
  · rintro ⟨n, hn, rfl⟩
    omega
  · rintro ⟨h1, h2⟩
    exact ⟨(d - s).toNat, by omega, by omega⟩

theorem daterange_pairwise (s e : Int) : (daterange s e).Pairwise (· < ·) := by
  unfold daterange
  rw [List.pairwise_map]
  exact (List.pairwise_lt_range _).imp (fun h => by omega)

theorem daterange_of_degenerate (s e : Int) (h : e ≤ s) : daterange s e = [] := by
  have : (e - s).toNat = 0 := by omega
  simp [daterange, this]

theorem blocked_iff (store : Store) (oid : String) (s e d : Int) :
    blocked store oid s e d = true ↔
      ∃ b ∈ store.bookings, b.offering_id = oid ∧ b.start_date < e ∧ b.end_date > s ∧
        d ∈ daterange b.start_date b.end_date := by
  simp only [blocked, List.elem_iff, List.mem_flatMap, List.mem_filter,
    availability_query, Bool.and_eq_true, beq_iff_eq, decide_eq_true_eq]
  constructor
  · rintro ⟨b, ⟨hb, h1, h2, h3⟩, hd⟩
    exact ⟨b, hb, h1, h2, h3, hd⟩
  · rintro ⟨b, hb, h1, h2, h3, hd⟩
    exact ⟨b, ⟨hb, h1, h2, h3⟩, hd⟩

theorem check_availability_eq (store : Store) (oid : String) (s e : Int) :
    check_availability store oid s e =
      (daterange s e).map (fun d => (d, !(blocked store oid s e d))) := rfl

theorem mem_check_availability (store : Store) (oid : String) (s e d : Int) (a : Bool) :
    (d, a) ∈ check_availability store oid s e ↔
      (s ≤ d ∧ d < e) ∧ a = !(blocked store oid s e d) := by
  rw [check_availability_eq]
  simp only [List.mem_map, Prod.mk.injEq]
  constructor
  · rintro ⟨d', hd', rfl, rfl⟩
    exact ⟨(mem_daterange s e d').mp hd', rfl⟩
  · rintro ⟨hd, rfl⟩
    exact ⟨d, (mem_daterange s e d).mpr hd, rfl, rfl⟩

theorem conflict_query_iff (req : CreateBookingRequest) (b : Booking) :
    conflict_query req b = true ↔
      b.offering_id = req.offering_id ∧ b.status ≠ "cancelled" ∧
        b.start_date < req.end_date ∧ b.end_date > req.start_date := by
  simp only [conflict_query, Bool.and_eq_true, beq_iff_eq, bne_iff_ne, decide_eq_true_eq]
  tauto

theorem create_booking_of_no_offering (store : Store) (req : CreateBookingRequest)
    (h : store.offerings.find? (fun o => o.id == req.offering_id) = none) :
    create_booking store req = (BookResult.notFound, store) := by
  unfold create_booking
  rw [h]

theorem create_booking_of_conflict (store : Store) (req : CreateBookingRequest)
    (off : Offering) (b : Booking)
    (hoff : store.offerings.find? (fun o => o.id == req.offering_id) = some off)
    (hc : store.bookings.find? (conflict_query req) = some b) :
    create_booking store req = (BookResult.conflict, store) := by
  unfold create_booking
  rw [hoff, hc]

theorem create_booking_of_invalid (store : Store) (req : CreateBookingRequest)
    (off : Offering)
    (hoff : store.offerings.find? (fun o => o.id == req.offering_id) = some off)
    (hc : store.bookings.find? (conflict_query req) = none)
    (hn : req.end_date - req.start_date ≤ 0) :
    create_booking store req = (BookResult.invalidRange, store) := by
  unfold create_booking
  rw [hoff, hc]
  simp [hn]

theorem create_booking_of_ok (store : Store) (req : CreateBookingRequest)
    (off : Offering)
    (hoff : store.offerings.find? (fun o => o.id == req.offering_id) = some off)
    (hc : store.bookings.find? (conflict_query req) = none)
    (hn : ¬ req.end_date - req.start_date ≤ 0) :
    create_booking store req =
      (BookResult.ok store.bookings.length
          (off.price_per_night * ((req.end_date - req.start_date : Int) : ℚ)),
        { store with bookings := store.bookings ++
            [{ user_email := req.user_email
               offering_id := req.offering_id
               start_date := req.start_date
               end_date := req.end_date
               guests := req.guests
               total_price := off.price_per_night * ((req.end_date - req.start_date : Int) : ℚ)
               status := "confirmed"
               note := none }] }) := by
  unfold create_booking
  rw [hoff, hc]
  simp [hn]

/-- C6: day-range expansion yields exactly the calendar days of the half-open range
`[start_date, end_date)` in ascending order, and for `end_date ≤ start_date` it yields
the empty sequence without error. -/
theorem daterange_spec (s e : Int) :
    (∀ d : Int, d ∈ daterange s e ↔ s ≤ d ∧ d < e) ∧
    (daterange s e).Pairwise (· < ·) ∧
    (e ≤ s → daterange s e = []) :=
  ⟨fun d => mem_daterange s e d, daterange_pairwise s e, daterange_of_degenerate s e⟩

theorem daterange_spec_witness :
    daterange 5 5 = [] ∧ (3 : Int) ∈ daterange 2 6 :=
  ⟨(daterange_spec 5 5).2.2 (by decide), ((daterange_spec 2 6).1 3).mpr (by decide)⟩

/-- C3: checkAvailability returns one `(date, available)` pair per day of the half-open
query range, in ascending date order, and a day is marked `available = false` exactly
when it lies in the day expansion of some fetched overlapping booking's range. -/
theorem check_availability_days (store : Store) (oid : String) (s e : Int) :
    ((check_availability store oid s e).map Prod.fst = daterange s e) ∧
    (∀ d : Int, d ∈ (check_availability store oid s e).map Prod.fst ↔ s ≤ d ∧ d < e) ∧
    ((check_availability store oid s e).map Prod.fst).Pairwise (· < ·) ∧
    (∀ d a, (d, a) ∈ check_availability store oid s e →
      (a = false ↔ ∃ b ∈ store.bookings, b.offering_id = oid ∧ b.start_date < e ∧
        b.end_date > s ∧ d ∈ daterange b.start_date b.end_date)) := by
  have hfst : (check_availability store oid s e).map Prod.fst = daterange s e := by
    rw [check_availability_eq, List.map_map]
    simp [Function.comp_def]
  refine ⟨hfst, ?_, ?_, ?_⟩
  · intro d
    rw [hfst]
    exact mem_daterange s e d
  · rw [hfst]
    exact daterange_pairwise s e
  · intro d a hmem
    have h := (mem_check_availability store oid s e d a).mp hmem
    rw [h.2, ← blocked_iff store oid s e d]
    simp

theorem check_availability_days_witness :
    (check_availability sampleStore "van" 9 12).map Prod.fst = daterange 9 12 :=
  (check_availability_days sampleStore "van" 9 12).1

/-- C5: the availability query applies no booking-status filter — a cancelled booking
that overlaps the query range still contributes all of its days to the blocked-day set,
so those days are reported `available = false`. -/
theorem check_availability_cancelled_blocks (store : Store) (oid : String) (s e : Int)
    (b : Booking) (hb : b ∈ store.bookings) (hoid : b.offering_id = oid)
    (_hst : b.status = "cancelled") (h1 : b.start_date < e) (h2 : b.end_date > s) :
    ∀ d a, (d, a) ∈ check_availability store oid s e →
      d ∈ daterange b.start_date b.end_date → a = false := by
  intro d a hmem hd
  have h := (mem_check_availability store oid s e d a).mp hmem
  rw [h.2]
  have hblocked : blocked store oid s e d = true :=
    (blocked_iff store oid s e d).mpr ⟨b, hb, hoid, h1, h2, hd⟩
  rw [hblocked]
  rfl

theorem check_availability_cancelled_blocks_witness :
    ((20 : Int), false) ∈ check_availability sampleStore "van" 19 23 ∧ false = false :=
  ⟨by decide,
    check_availability_cancelled_blocks sampleStore "van" 19 23 vanCancelledBooking
      (by decide) (by decide) (by decide) (by decide) (by decide) 20 false
      (by decide) (by decide)⟩

/-- C8: checkAvailability has no failure path — when no booking in the store carries
the requested offering id (in particular for an unknown offering), it still answers,
reporting every day of the query range available. -/
theorem check_availability_unknown_offering (store : Store) (oid : String) (s e : Int)
    (h : ∀ b ∈ store.bookings, b.offering_id ≠ oid) :
    check_availability store oid s e = (daterange s e).map (fun d => (d, true)) := by
  rw [check_availability_eq]
  apply List.map_congr_left
  intro d _
  have hb : blocked store oid s e d = false := by
    cases hb : blocked store oid s e d
    · rfl
    · obtain ⟨b, hb', h1, _⟩ := (blocked_iff store oid s e d).mp hb
      exact absurd h1 (h b hb')
  rw [hb]
  rfl

theorem check_availability_unknown_offering_witness :
    check_availability sampleStore "igloo" 10 13 =
      (daterange 10 13).map (fun d => (d, true)) :=
  check_availability_unknown_offering sampleStore "igloo" 10 13 (by decide)

/-- C1: once the offering resolves, admission fails with Conflict exactly when some
booking of the same offering with status other than `cancelled` overlaps the requested
half-open range (`existing.start < new.end` and `existing.end > new.start`); in
particular boundary-touching ranges and cancelled bookings never trigger Conflict. -/
theorem create_booking_conflict_iff (store : Store) (req : CreateBookingRequest)
    (off : Offering)
    (hoff : store.offerings.find? (fun o => o.id == req.offering_id) = some off) :
    (create_booking store req).1 = BookResult.conflict ↔
      ∃ b ∈ store.bookings, b.offering_id = req.offering_id ∧ b.status ≠ "cancelled" ∧
        b.start_date < req.end_date ∧ b.end_date > req.start_date := by
  constructor
  · intro hres
    rcases hc : store.bookings.find? (conflict_query req) with _ | b
    · exfalso
      by_cases hn : req.end_date - req.start_date ≤ 0
      · rw [create_booking_of_invalid store req off hoff hc hn] at hres
        simp at hres
      · rw [create_booking_of_ok store req off hoff hc hn] at hres
        simp at hres
    · exact ⟨b, List.mem_of_find?_eq_some hc,
        (conflict_query_iff req b).mp (List.find?_some hc)⟩
  · rintro ⟨b, hb, hprops⟩
    rcases hc : store.bookings.find? (conflict_query req) with _ | b'
    · exact absurd ((conflict_query_iff req b).mpr hprops) (List.find?_eq_none.mp hc b hb)
    · rw [create_booking_of_conflict store req off b' hoff hc]

theorem create_booking_conflict_iff_witness :
    (create_booking sampleStore overlapReq).1 = BookResult.conflict ∧
    (create_booking sampleStore boundaryReq).1 ≠ BookResult.conflict :=
  ⟨(create_booking_conflict_iff sampleStore overlapReq vanOffering (by decide)).mpr
      (by decide),
    fun h => absurd
      ((create_booking_conflict_iff sampleStore boundaryReq vanOffering (by decide)).mp h)
      (by decide)⟩

/-- C2 as amended: when the offering resolves and no non-cancelled booking of the same
offering overlaps the requested half-open range (the conflict check runs first), a
request with `end_date - start_date ≤ 0` nights fails with InvalidRange. -/
theorem create_booking_invalid_range_checked (store : Store)
    (req : CreateBookingRequest) (off : Offering)
    (hoff : store.offerings.find? (fun o => o.id == req.offering_id) = some off)
    (hnc : ∀ b ∈ store.bookings,
      ¬(b.offering_id = req.offering_id ∧ b.status ≠ "cancelled" ∧
        b.start_date < req.end_date ∧ b.end_date > req.start_date))
    (hn : req.end_date - req.start_date ≤ 0) :
    (create_booking store req).1 = BookResult.invalidRange := by
  have hc : store.bookings.find? (conflict_query req) = none :=
    List.find?_eq_none.mpr (fun b hb h =>
      hnc b hb ((conflict_query_iff req b).mp h))
  rw [create_booking_of_invalid store req off hoff hc hn]

theorem create_booking_invalid_range_checked_witness :
    (create_booking sampleStore degenerateFreeReq).1 = BookResult.invalidRange :=
  create_booking_invalid_range_checked sampleStore degenerateFreeReq vanOffering
    (by decide) (by decide) (by decide)

theorem create_booking_invalid_range_cex :
    (sampleStore.offerings.find? (fun o => o.id == degenerateReq.offering_id) =
        some vanOffering) ∧
    degenerateReq.end_date - degenerateReq.start_date ≤ 0 ∧
    (create_booking sampleStore degenerateReq).1 = BookResult.conflict ∧
    (create_booking sampleStore degenerateReq).1 ≠ BookResult.invalidRange := by
  decide

/-- C4: on successful admission the returned total price equals
`price_per_night * nights` with `nights = end_date - start_date`, and the persisted
booking carries that same total. -/
theorem create_booking_total_price (store : Store) (req : CreateBookingRequest)
    (off : Offering)
    (hoff : store.offerings.find? (fun o => o.id == req.offering_id) = some off)
    (bid : Nat) (total : ℚ)
    (hok : (create_booking store req).1 = BookResult.ok bid total) :
    total = off.price_per_night * ((req.end_date - req.start_date : Int) : ℚ) ∧
    ∃ b, (create_booking store req).2.bookings = store.bookings ++ [b] ∧
      b.total_price = total := by
  rcases hc : store.bookings.find? (conflict_query req) with _ | b
  · by_cases hn : req.end_date - req.start_date ≤ 0
    · rw [create_booking_of_invalid store req off hoff hc hn] at hok
      simp at hok
    · have heq := create_booking_of_ok store req off hoff hc hn
      rw [heq] at hok
      injection hok with hbid htot
      refine ⟨htot.symm, ?_⟩
      rw [heq]
      exact ⟨_, rfl, htot⟩
  · rw [create_booking_of_conflict store req off b hoff hc] at hok
    simp at hok

theorem create_booking_total_price_witness :
    ((165 : ℚ) = vanOffering.price_per_night *
        ((boundaryReq.end_date - boundaryReq.start_date : Int) : ℚ)) ∧
    ∃ b, (create_booking sampleStore boundaryReq).2.bookings =
        sampleStore.bookings ++ [b] ∧ b.total_price = (165 : ℚ) :=
  create_booking_total_price sampleStore boundaryReq vanOffering (by decide) 2 165
    (by
      rw [create_booking_of_ok sampleStore boundaryReq vanOffering (by decide) (by decide)
        (by decide)]
      norm_num [sampleStore, vanOffering, boundaryReq, vanBooking, vanCancelledBooking])

/-- C7: successful admission appends exactly one new booking with status `confirmed`,
the computed total, the request's guest count, and an absent note (the request carries
no note field), and returns the new booking's identifier together with the total. -/
theorem create_booking_success_persists (store : Store) (req : CreateBookingRequest)
    (off : Offering)
    (hoff : store.offerings.find? (fun o => o.id == req.offering_id) = some off)
    (bid : Nat) (total : ℚ)
    (hok : (create_booking store req).1 = BookResult.ok bid total) :
    bid = store.bookings.length ∧
    (create_booking store req).2.bookings = store.bookings ++
      [{ user_email := req.user_email
         offering_id := req.offering_id
         start_date := req.start_date
         end_date := req.end_date
         guests := req.guests
         total_price := total
         status := "confirmed"
         note := none }] := by
  rcases hc : store.bookings.find? (conflict_query req) with _ | b
  · by_cases hn : req.end_date - req.start_date ≤ 0
    · rw [create_booking_of_invalid store req off hoff hc hn] at hok
      simp at hok
    · have heq := create_booking_of_ok store req off hoff hc hn
      rw [heq] at hok
      injection hok with hbid htot
      refine ⟨hbid.symm, ?_⟩
      rw [heq, ← htot]
  · rw [create_booking_of_conflict store req off b hoff hc] at hok
    simp at hok

theorem create_booking_success_persists_witness :
    (2 : Nat) = sampleStore.bookings.length ∧
    (create_booking sampleStore boundaryReq).2.bookings = sampleStore.bookings ++
      [{ user_email := boundaryReq.user_email
         offering_id := boundaryReq.offering_id
         start_date := boundaryReq.start_date
         end_date := boundaryReq.end_date
         guests := boundaryReq.guests
         total_price := (165 : ℚ)
         status := "confirmed"
         note := none }] :=
  create_booking_success_persists sampleStore boundaryReq vanOffering (by decide) 2 165
    (by
      rw [create_booking_of_ok sampleStore boundaryReq vanOffering (by decide) (by decide)
        (by decide)]
      norm_num [sampleStore, vanOffering, boundaryReq, vanBooking, vanCancelledBooking])

/-- C10: failure atomicity — whenever admission fails with NotFound, Conflict, or
InvalidRange the store is returned unchanged, and the user and offering collections are
untouched on every path, success included. -/
theorem create_booking_failure_atomic (store : Store) (req : CreateBookingRequest) :
    (((create_booking store req).1 = BookResult.notFound ∨
      (create_booking store req).1 = BookResult.conflict ∨
      (create_booking store req).1 = BookResult.invalidRange) →
      (create_booking store req).2 = store) ∧
    (create_booking store req).2.users = store.users ∧
    (create_booking store req).2.offerings = store.offerings := by
  rcases hoff : store.offerings.find? (fun o => o.id == req.offering_id) with _ | off
  · rw [create_booking_of_no_offering store req hoff]
    exact ⟨fun _ => rfl, rfl, rfl⟩
  · rcases hc : store.bookings.find? (conflict_query req) with _ | b
    · by_cases hn : req.end_date - req.start_date ≤ 0
      · rw [create_booking_of_invalid store req off hoff hc hn]
        exact ⟨fun _ => rfl, rfl, rfl⟩
      · rw [create_booking_of_ok store req off hoff hc hn]
        refine ⟨?_, rfl, rfl⟩
        rintro (h | h | h) <;> simp at h
    · rw [create_booking_of_conflict store req off b hoff hc]
      exact ⟨fun _ => rfl, rfl, rfl⟩

theorem create_booking_failure_atomic_witness :
    (create_booking sampleStore overlapReq).2 = sampleStore :=
  (create_booking_failure_atomic sampleStore overlapReq).1 (Or.inr (Or.inl (by decide)))

/-- C9: registration fails with AlreadyExists exactly when some stored user's email is
the identical string (case-sensitive equality); otherwise it appends one user whose
password field is the one-way digest of the supplied password — and whenever the digest
moves the plaintext, no newly stored user carries the plaintext itself. -/
theorem register_spec (digest : String → String) (store : Store)
    (name email password : String) :
    ((register digest store name email password).1 = RegResult.alreadyExists ↔
      ∃ u ∈ store.users, u.email = email) ∧
    ((¬ ∃ u ∈ store.users, u.email = email) →
      (register digest store name email password).2.users = store.users ++
        [{ name := name
           email := email
           password_hash := hash_password digest password
           avatar_url := none }]) ∧
    (digest password ≠ password →
      ∀ u, u ∈ (register digest store name email password).2.users →
        u ∉ store.users → u.password_hash ≠ password) := by
  rcases hf : store.users.find? (fun u => u.email == email) with _ | u0
  · have hno : ¬ ∃ u ∈ store.users, u.email = email := by
      rintro ⟨u, hu, he⟩
      exact List.find?_eq_none.mp hf u hu (by simp [he])
    unfold register
    rw [hf]
    refine ⟨⟨fun h => by simp at h, fun h => absurd h hno⟩, fun _ => rfl, ?_⟩
    intro hd u hu hnot
    rcases List.mem_append.mp hu with h | h
    · exact absurd h hnot
    · have : u =
          { name := name
            email := email
            password_hash := hash_password digest password
            avatar_url := none } := by
        simpa using h
      rw [this]
      exact hd
  · unfold register
    rw [hf]
    have hmem := List.mem_of_find?_eq_some hf
    have heq : u0.email = email := by simpa using List.find?_some hf
    refine ⟨iff_of_true rfl ⟨u0, hmem, heq⟩, fun h => absurd ⟨u0, hmem, heq⟩ h, ?_⟩
    intro hd u hu hnot
    exact absurd hu hnot

theorem register_spec_witness :
    (register (fun s => String.append "sha" s) sampleStore "Ivo" "ivo@example.com"
        "pw").2.users =
      sampleStore.users ++
        [{ name := "Ivo"
           email := "ivo@example.com"
           password_hash := hash_password (fun s => String.append "sha" s) "pw"
           avatar_url := none }] :=
  (register_spec (fun s => String.append "sha" s) sampleStore "Ivo" "ivo@example.com"
      "pw").2.1 (by decide)

end PlivaRetreat
